import Mathlib

set_option maxRecDepth 40000

/-!
Formal model of generate_playlists.py.

The script is embedded shallowly: JSON dictionaries are modelled as
association lists in insertion order, Python exceptions are modelled with
an Except monad, and the network is modelled as an oracle giving the
outcome of each HTTP request.  Line numbers in comments refer to
src/generate_playlists.py.
-/

/-- Double quote character. -/
def dquote : Char := Char.ofNat 34

/-- Single quote character. -/
def squote : Char := Char.ofNat 39

/-- Comma character. -/
def commaChar : Char := Char.ofNat 44

/-- Python str.replace with a one-character pattern and a one-character
replacement. -/
def pyReplaceChar (a b : Char) (s : String) : String :=
  String.mk (s.data.map fun c => if c = a then b else c)

/-- Python str.replace with a one-character pattern and the empty
replacement, which deletes every occurrence of the character. -/
def pyRemoveChar (a : Char) (s : String) : String :=
  String.mk (s.data.filter fun c => !(c = a))

/-- Python str.lower for the ASCII strings the script handles. -/
def pyLower (s : String) : String := String.mk (s.data.map Char.toLower)

/-- Python str.upper for the ASCII strings the script handles. -/
def pyUpper (s : String) : String := String.mk (s.data.map Char.toUpper)

/-- Whitespace stripped by Python int from both ends of its argument. -/
def isSpaceChar (c : Char) : Bool :=
  c = Char.ofNat 32 || c = Char.ofNat 9 || c = Char.ofNat 10 || c = Char.ofNat 13

/-- Python str.strip on a character list. -/
def pyStripChars (l : List Char) : List Char :=
  ((l.dropWhile isSpaceChar).reverse.dropWhile isSpaceChar).reverse

/-- Python str.isdigit restricted to ASCII digits: the string is nonempty
and consists of digits only. -/
def pyIsdigit (s : String) : Bool :=
  s.data.length > 0 && s.data.all Char.isDigit

/-- Value of the chno field as it appears in the upstream JSON document:
either a number or a string. -/
inductive Chno where
  | num (n : Int)
  | str (s : String)
deriving DecidableEq, Repr

/-- Python str applied to a chno value. -/
def Chno.pyStr : Chno → String
  | .num n => toString n
  | .str s => s

/-- Python int applied to a string: optional surrounding whitespace, an
optional sign, then at least one ASCII digit; anything else raises
ValueError, modelled as none. -/
def pyIntOfString (s : String) : Option Int :=
  let t := pyStripChars s.data
  let signed : Bool × List Char :=
    match t with
    | c :: rest =>
        if c = Char.ofNat 45 then (true, rest)
        else if c = Char.ofNat 43 then (false, rest) else (false, t)
    | [] => (false, t)
  if signed.2.length > 0 && signed.2.all Char.isDigit then
    let n : Int := signed.2.foldl (fun acc c => acc * 10 + Int.ofNat (c.toNat - 48)) 0
    some (if signed.1 then -n else n)
  else none

/-- Python int applied to a chno value; none models a raised ValueError. -/
def Chno.pyInt : Chno → Option Int
  | .num n => some n
  | .str s => pyIntOfString s

/-- Python rendering of an optional string inside an f-string: None is
interpolated as the literal text None. -/
def pyShowOptStr : Option String → String
  | none => "None"
  | some s => s

/-- Value of the local chno_str in format_extinf (line 79): str(tvg_chno)
when the value is present and all digits, the empty string otherwise. -/
def chno_str : Option Chno → String
  | none => ""
  | some c => if pyIsdigit c.pyStr then c.pyStr else ""

/-- Translation of format_extinf (lines 77 to 91).  Double quotes are
replaced by single quotes in tvg_name and in group_title, commas are
removed from display_name; channel_id, tvg_id and tvg_logo are
interpolated verbatim. -/
def format_extinf (channel_id tvg_id : String) (tvg_chno : Option Chno)
    (tvg_name tvg_logo group_title display_name : String) : String :=
  "#EXTINF:-1 channel-id=\"" ++ channel_id ++
  "\" tvg-id=\"" ++ tvg_id ++
  "\" tvg-chno=\"" ++ chno_str tvg_chno ++
  "\" tvg-name=\"" ++ pyReplaceChar dquote squote tvg_name ++
  "\" tvg-logo=\"" ++ tvg_logo ++
  "\" group-title=\"" ++ pyReplaceChar dquote squote group_title ++
  "\"," ++ pyRemoveChar commaChar display_name ++ "\n"

/-- Rendering of the EXTINF line as the specification describes it: every
attribute value, including channel-id, tvg-id and tvg-logo, has its double
quotes replaced by single quotes.  Written from the words of the spec, for
comparison with format_extinf. -/
def format_extinf_specSanitized (channel_id tvg_id : String) (tvg_chno : Option Chno)
    (tvg_name tvg_logo group_title display_name : String) : String :=
  "#EXTINF:-1 channel-id=\"" ++ pyReplaceChar dquote squote channel_id ++
  "\" tvg-id=\"" ++ pyReplaceChar dquote squote tvg_id ++
  "\" tvg-chno=\"" ++ pyReplaceChar dquote squote (chno_str tvg_chno) ++
  "\" tvg-name=\"" ++ pyReplaceChar dquote squote tvg_name ++
  "\" tvg-logo=\"" ++ pyReplaceChar dquote squote tvg_logo ++
  "\" group-title=\"" ++ pyReplaceChar dquote squote group_title ++
  "\"," ++ pyRemoveChar commaChar display_name ++ "\n"

/-- Does a string contain a double quote character. -/
def hasDq (s : String) : Bool := s.data.contains dquote

/-- A string rebuilt from its character list is itself. -/
theorem string_mk_data (s : String) : String.mk s.data = s := by
  cases s
  rfl

/-- Absence of a double quote, phrased through list membership. -/
theorem hasDq_eq_false_iff (s : String) : hasDq s = false ↔ dquote ∉ s.data := by
  unfold hasDq
  rw [List.contains_eq_any_beq, List.any_eq_false]
  constructor
  · intro h hm
    exact h dquote hm (by simp)
  · intro h c hc hb
    exact h (by rw [eq_of_beq hb]; exact hc)

/-- Replacing a character by a different one leaves no occurrence of the
replaced character. -/
theorem pyReplaceChar_not_mem (a b : Char) (h : b ≠ a) (s : String) :
    a ∉ (pyReplaceChar a b s).data := by
  intro hmem
  simp only [pyReplaceChar, List.mem_map] at hmem
  obtain ⟨c, -, hc⟩ := hmem
  by_cases hca : c = a
  · rw [if_pos hca] at hc
    exact h hc
  · rw [if_neg hca] at hc
    exact hca hc

/-- Replacing a character that does not occur in the string leaves the
string unchanged. -/
theorem pyReplaceChar_eq_self (a b : Char) (s : String) (h : a ∉ s.data) :
    pyReplaceChar a b s = s := by
  unfold pyReplaceChar
  have hmap : s.data.map (fun c => if c = a then b else c) = s.data := by
    have := List.map_congr_left (l := s.data)
      (f := fun c => if c = a then b else c) (g := id) ?_
    · rw [this, List.map_id]
    · intro c hc
      have : c ≠ a := fun hca => h (hca ▸ hc)
      simp [this]
  rw [hmap, string_mk_data]

/-- The rendered chno attribute never contains a double quote: it is
either empty or a string of digits. -/
theorem chno_str_hasDq_false (c : Option Chno) : hasDq (chno_str c) = false := by
  cases c with
  | none => decide
  | some v =>
    simp only [chno_str]
    by_cases h : pyIsdigit v.pyStr = true
    · rw [if_pos h]
      unfold pyIsdigit at h
      have hall := (Bool.and_eq_true _ _).mp h |>.2
      rw [hasDq_eq_false_iff]
      intro hmem
      have hd := List.all_eq_true.mp hall dquote hmem
      revert hd
      decide
    · rw [if_neg h]
      decide

/-- Logo value used in the C1 counterexample: it contains a double
quote. -/
def quoteLogo : String := "a" ++ String.mk [dquote] ++ "b"

/-- C1 fails on the code: with a double quote inside the logo field the
rendered line keeps the double quote inside the tvg-logo attribute value,
and the line differs from the fully sanitized line the spec describes. -/
theorem C1_counterexample :
    format_extinf "cid" "tid" none "nm" quoteLogo "grp" "nm" ≠
      format_extinf_specSanitized "cid" "tid" none "nm" quoteLogo "grp" "nm" ∧
    ("tvg-logo=" ++ String.mk [dquote] ++ "a" ++ String.mk [dquote] ++ "b").data <:+:
      (format_extinf "cid" "tid" none "nm" quoteLogo "grp" "nm").data := by
  constructor
  · decide
  · decide

/-- C1 amended: quote sanitization is applied to the tvg-name and
group-title values only, and the tvg-chno value is always quote free;
channel-id, tvg-id and tvg-logo are interpolated verbatim, so the rendered
line agrees with the fully sanitized line of the spec exactly on inputs
whose channel id, tvg id and logo contain no double quote. -/
theorem C1_extinf_quote_sanitization (channel_id tvg_id : String) (tvg_chno : Option Chno)
    (tvg_name tvg_logo group_title display_name : String)
    (h1 : hasDq channel_id = false) (h2 : hasDq tvg_id = false)
    (h3 : hasDq tvg_logo = false) :
    format_extinf channel_id tvg_id tvg_chno tvg_name tvg_logo group_title display_name =
      format_extinf_specSanitized channel_id tvg_id tvg_chno tvg_name tvg_logo group_title
        display_name ∧
    hasDq (pyReplaceChar dquote squote tvg_name) = false ∧
    hasDq (pyReplaceChar dquote squote group_title) = false ∧
    hasDq (chno_str tvg_chno) = false := by
  have hne : squote ≠ dquote := by decide
  have hsan : ∀ s : String, hasDq (pyReplaceChar dquote squote s) = false := by
    intro s
    rw [hasDq_eq_false_iff]
    exact pyReplaceChar_not_mem dquote squote hne s
  refine ⟨?_, hsan tvg_name, hsan group_title, chno_str_hasDq_false tvg_chno⟩
  unfold format_extinf format_extinf_specSanitized
  rw [pyReplaceChar_eq_self dquote squote channel_id ((hasDq_eq_false_iff _).mp h1),
    pyReplaceChar_eq_self dquote squote tvg_id ((hasDq_eq_false_iff _).mp h2),
    pyReplaceChar_eq_self dquote squote tvg_logo ((hasDq_eq_false_iff _).mp h3),
    pyReplaceChar_eq_self dquote squote (chno_str tvg_chno)
      ((hasDq_eq_false_iff _).mp (chno_str_hasDq_false tvg_chno))]

/-- Witness for the amended C1 theorem at concrete inputs. -/
theorem C1_extinf_quote_sanitization_witness :
    (hasDq "cid" = false ∧ hasDq "tid" = false ∧ hasDq "lg" = false) ∧
    (format_extinf "cid" "tid" (some (.str "7")) "nm" "lg" "grp" "dn" =
        format_extinf_specSanitized "cid" "tid" (some (.str "7")) "nm" "lg" "grp" "dn" ∧
      hasDq (pyReplaceChar dquote squote "nm") = false ∧
      hasDq (pyReplaceChar dquote squote "grp") = false ∧
      hasDq (chno_str (some (.str "7"))) = false) :=
  ⟨by decide,
    C1_extinf_quote_sanitization "cid" "tid" (some (.str "7")) "nm" "lg" "grp" "dn"
      (by decide) (by decide) (by decide)⟩

/-! ## Fetcher -/

/-- Python exception classes the script can raise or catch. -/
inductive PyExn where
  | requestException
  | jsonDecodeError
  | badGzipFile
  | unicodeDecodeError
  | attributeError
  | indexError
  | otherError
deriving DecidableEq, Repr

/-- Outcome of gzip decompression followed by utf-8 decoding of the
response body (lines 30 to 41): decompression succeeds and the inner
decode yields some text or raises, decompression raises BadGzipFile, or it
raises some other exception which the handler logs and re-raises. -/
inductive GzipOutcome where
  | ok (text : Option String)
  | notGzipped
  | fails
deriving DecidableEq, Repr

/-- Abstract HTTP response: the status code and the outcomes of the two
body decoding routes the script can take. -/
structure HttpResponse where
  status : Nat
  bodyUtf8 : Option String
  bodyGunzip : GzipOutcome
deriving DecidableEq, Repr

/-- Value returned by fetch_url on success: the streaming response object,
raw text, or a parsed JSON document. -/
inductive FetchVal (J : Type) where
  | streamed (r : HttpResponse)
  | text (s : String)
  | json (j : J)
deriving DecidableEq, Repr

/-- Decoding of the response body (lines 29 to 44): with is_gzipped, try
to gunzip and decode, falling back to decoding the raw bytes as plain text
on BadGzipFile, and re-raising any other gzip error; without is_gzipped,
decode the raw bytes directly. -/
def decodeContent (r : HttpResponse) (is_gzipped : Bool) : Except PyExn String :=
  if is_gzipped then
    match r.bodyGunzip with
    | .ok (some t) => .ok t
    | .ok none => .error .unicodeDecodeError
    | .notGzipped =>
        match r.bodyUtf8 with
        | some t => .ok t
        | none => .error .unicodeDecodeError
    | .fails => .error .otherError
  else
    match r.bodyUtf8 with
    | some t => .ok t
    | none => .error .unicodeDecodeError

/-- Body of the try block of fetch_url (lines 21 to 51).  resp is the
outcome of the single requests.get call, none meaning the call raised a
RequestException.  raise_for_status raises for status codes of 400 and
above, which includes 429; jsonLoads models json.loads, returning none on
a JSONDecodeError. -/
def fetch_url_try (J : Type) (jsonLoads : String → Option J) (resp : Option HttpResponse)
    (is_json is_gzipped stream : Bool) : Except PyExn (FetchVal J) :=
  match resp with
  | none => .error .requestException
  | some r =>
    if 400 ≤ r.status then .error .requestException
    else if stream then .ok (.streamed r)
    else
      match decodeContent r is_gzipped with
      | .error e => .error e
      | .ok content =>
        if is_json then
          match jsonLoads content with
          | some j => .ok (.json j)
          | none => .error .jsonDecodeError
        else .ok (.text content)

/-- Translation of fetch_url (lines 18 to 61).  gets n is the outcome the
network would give to an n-th requests.get call; the function performs
exactly one call, counted by the second component.  The three except
clauses (RequestException, JSONDecodeError, bare Exception) all return
None, modelled as ok none. -/
def fetch_url (J : Type) (jsonLoads : String → Option J) (gets : Nat → Option HttpResponse)
    (is_json is_gzipped stream : Bool) : Except PyExn (Option (FetchVal J)) × Nat :=
  (match fetch_url_try J jsonLoads (gets 0) is_json is_gzipped stream with
   | .ok v => .ok (some v)
   | .error .requestException => .ok none
   | .error .jsonDecodeError => .ok none
   | .error _ => .ok none, 1)

/-- Statement that fetch_url never lets an exception escape to its caller
and yields the None sentinel on every failure path: network error, bad
status, undecodable body (including a bad gzip whose plain-text fallback
also fails), and JSON decode error. -/
def fetchNeverRaises (J : Type) (jsonLoads : String → Option J)
    (gets : Nat → Option HttpResponse) (is_json is_gzipped stream : Bool) : Prop :=
  (∀ e : PyExn, (fetch_url J jsonLoads gets is_json is_gzipped stream).1 ≠ .error e) ∧
  (gets 0 = none → (fetch_url J jsonLoads gets is_json is_gzipped stream).1 = .ok none) ∧
  (∀ r : HttpResponse, gets 0 = some r → 400 ≤ r.status →
    (fetch_url J jsonLoads gets is_json is_gzipped stream).1 = .ok none) ∧
  (∀ (r : HttpResponse) (e : PyExn), gets 0 = some r → ¬ 400 ≤ r.status → stream = false →
    decodeContent r is_gzipped = .error e →
    (fetch_url J jsonLoads gets is_json is_gzipped stream).1 = .ok none) ∧
  (∀ (r : HttpResponse) (s : String), gets 0 = some r → ¬ 400 ≤ r.status → stream = false →
    decodeContent r is_gzipped = .ok s → is_json = true → jsonLoads s = none →
    (fetch_url J jsonLoads gets is_json is_gzipped stream).1 = .ok none)

/-- C7: fetch_url never raises to its caller; every failure mode ends in
the None sentinel. -/
theorem C7_fetch_returns_sentinel (J : Type) (jsonLoads : String → Option J)
    (gets : Nat → Option HttpResponse) (is_json is_gzipped stream : Bool) :
    fetchNeverRaises J jsonLoads gets is_json is_gzipped stream := by
  refine ⟨?_, ?_, ?_, ?_, ?_⟩
  · intro e
    unfold fetch_url
    cases h : fetch_url_try J jsonLoads (gets 0) is_json is_gzipped stream with
    | ok v => simp
    | error ex => cases ex <;> simp
  · intro h
    unfold fetch_url fetch_url_try
    rw [h]
  · intro r h hs
    unfold fetch_url fetch_url_try
    rw [h]
    simp only [if_pos hs]
  · intro r e h hs hstream hdec
    unfold fetch_url fetch_url_try
    rw [h]
    simp only [if_neg hs, hstream, if_neg (Bool.false_ne_true), hdec]
    cases e <;> rfl
  · intro r s h hs hstream hdec hjson hload
    unfold fetch_url fetch_url_try
    rw [h]
    simp only [if_neg hs, hstream, if_neg (Bool.false_ne_true), hdec, hjson, hload]
    rfl

/-- Witness: at the oracle where the single request raises, fetch_url
returns the None sentinel. -/
theorem C7_fetch_returns_sentinel_witness :
    (fetch_url Unit (fun _ => none) (fun _ => none) true true false).1 = .ok none :=
  (C7_fetch_returns_sentinel Unit (fun _ => none) (fun _ => none) true true false).2.1 rfl

/-- Successful HTTP response used by the C2 counterexample. -/
def okResp : HttpResponse :=
  { status := 200, bodyUtf8 := some "payload", bodyGunzip := .ok (some "payload") }

/-- Oracle for C2: the first request fails with a network error, every
later request would succeed. -/
def retryOracle : Nat → Option HttpResponse := fun n => if n = 0 then none else some okResp

/-- C2 fails on the code: fetch_url has no retry loop.  With an oracle
whose first request fails and whose second request would succeed, it makes
exactly one request and returns the None sentinel instead of retrying. -/
theorem C2_counterexample :
    fetch_url Unit (fun _ => none) retryOracle false false false = (.ok none, 1) ∧
    retryOracle 1 = some okResp := by
  exact ⟨rfl, rfl⟩

/-- C2 amended: the fetch operation performs exactly one HTTP request per
call, with no retry and no backoff; its result depends only on the outcome
of that single request. -/
theorem C2_fetch_single_request (J : Type) (jsonLoads : String → Option J)
    (g1 g2 : Nat → Option HttpResponse) (is_json is_gzipped stream : Bool)
    (h : g1 0 = g2 0) :
    (fetch_url J jsonLoads g1 is_json is_gzipped stream).2 = 1 ∧
    fetch_url J jsonLoads g1 is_json is_gzipped stream =
      fetch_url J jsonLoads g2 is_json is_gzipped stream := by
  constructor
  · rfl
  · unfold fetch_url
    rw [h]

/-- Witness for the amended C2 theorem. -/
theorem C2_fetch_single_request_witness :
    ((fun _ : Nat => (none : Option HttpResponse)) 0 = retryOracle 0) ∧
    ((fetch_url Unit (fun _ => none) (fun _ => none) true false false).2 = 1 ∧
      fetch_url Unit (fun _ => none) (fun _ => none) true false false =
        fetch_url Unit (fun _ => none) retryOracle true false false) :=
  ⟨rfl, C2_fetch_single_request Unit (fun _ => none) _ _ true false false rfl⟩

/-! ## Dictionaries and the output directory -/

/-- Python dict assignment: an existing key keeps its position and gets
the new value, a new key is appended at the end. -/
def pyDictInsert {α : Type} (k : String) (v : α) (d : List (String × α)) : List (String × α) :=
  if d.any (fun p => p.1 == k) then d.map (fun p => if p.1 = k then (k, v) else p)
  else d ++ [(k, v)]

/-- Lookup in a dict modelled as an association list. -/
def dictGet? {α : Type} (d : List (String × α)) (k : String) : Option α :=
  (d.find? (fun p => p.1 == k)).map Prod.snd

/-- Keys of a dict in insertion order. -/
def dictKeys {α : Type} (d : List (String × α)) : List String := d.map Prod.fst

/-- State of the output directory. -/
structure Fs where
  dirExists : Bool
  files : List (String × String)
deriving DecidableEq, Repr

/-- Translation of write_m3u_file (lines 63 to 75): create the output
directory when missing, then write the file, overwriting any previous file
of that name.  No other file is touched and nothing is ever deleted. -/
def write_m3u_file (filename content : String) (fs : Fs) : Fs :=
  { dirExists := true, files := pyDictInsert filename content fs.files }

/-- Effect of a whole run on the output directory: the writes performed by
the service drivers, applied in order.  Neither the main block (lines 401
to 424) nor any driver deletes existing files. -/
def runWrites (ws : List (String × String)) (fs : Fs) : Fs :=
  ws.foldl (fun a w => write_m3u_file w.1 w.2 a) fs

/-- Updating the value at one key does not change what find? returns for a
different key. -/
theorem find?_map_update {α : Type} (k f : String) (v : α) (d : List (String × α))
    (h : f ≠ k) :
    (d.map (fun p => if p.1 = k then (k, v) else p)).find? (fun p => p.1 == f) =
      d.find? (fun p => p.1 == f) := by
  induction d with
  | nil => rfl
  | cons p t ih =>
    simp only [List.map_cons]
    by_cases hk : p.1 = k
    · have h1 : ((k, v).1 == f) = false := beq_eq_false_iff_ne.mpr fun hkf => h hkf.symm
      have h2 : (p.1 == f) = false := by
        rw [hk]
        exact beq_eq_false_iff_ne.mpr fun hkf => h hkf.symm
      rw [if_pos hk, List.find?_cons_of_neg _ (by rw [h1]; exact Bool.false_ne_true),
        List.find?_cons_of_neg _ (by rw [h2]; exact Bool.false_ne_true), ih]
    · rw [if_neg hk]
      cases hb : (p.1 == f) with
      | false => simp only [List.find?_cons, hb, ih]
      | true => simp only [List.find?_cons, hb]

/-- Inserting one key leaves the binding of every other key unchanged. -/
theorem dictGet?_pyDictInsert_ne {α : Type} (k f : String) (v : α) (d : List (String × α))
    (h : f ≠ k) : dictGet? (pyDictInsert k v d) f = dictGet? d f := by
  unfold pyDictInsert dictGet?
  by_cases hc : d.any (fun p => p.1 == k) = true
  · rw [if_pos hc, find?_map_update k f v d h]
  · rw [if_neg hc, List.find?_append]
    have hone : ([((k : String), v)].find? (fun p => p.1 == f)) = none := by
      have : ((k, v).1 == f) = false := beq_eq_false_iff_ne.mpr fun hkf => h hkf.symm
      simp [List.find?, this]
    rw [hone]
    cases d.find? (fun p => p.1 == f) <;> rfl

/-- Output directory before the run, holding a file from a previous
configuration. -/
def staleFs : Fs := { dirExists := true, files := [("stale.m3u", "old")] }

/-- C3 fails on the code: no run ever wipes the output directory, so a
file left by a previous run survives a run that writes a fresh
playlist. -/
theorem C3_counterexample :
    (runWrites [("plutotv_us.m3u", "new")] staleFs).files =
      [("stale.m3u", "old"), ("plutotv_us.m3u", "new")] ∧
    dictGet? (runWrites [("plutotv_us.m3u", "new")] staleFs).files "stale.m3u" = some "old" := by
  exact ⟨rfl, rfl⟩

/-- C3 amended: the output directory is created when missing but never
wiped; a run only adds or overwrites the files it writes, and every file
it does not write keeps its previous content. -/
theorem C3_no_wipe (ws : List (String × String)) (fs : Fs) (f : String)
    (h : f ∉ ws.map Prod.fst) :
    dictGet? (runWrites ws fs).files f = dictGet? fs.files f := by
  induction ws generalizing fs with
  | nil => rfl
  | cons w t ih =>
    simp only [List.map_cons, List.mem_cons, not_or] at h
    obtain ⟨h1, h2⟩ := h
    have hstep : runWrites (w :: t) fs = runWrites t (write_m3u_file w.1 w.2 fs) := rfl
    rw [hstep, ih (write_m3u_file w.1 w.2 fs) h2]
    exact dictGet?_pyDictInsert_ne w.1 f w.2 fs.files h1

/-- Witness for the amended C3 theorem. -/
theorem C3_no_wipe_witness :
    ("stale.m3u" ∉ ([("plutotv_ca.m3u", "x")].map Prod.fst)) ∧
    dictGet? (runWrites [("plutotv_ca.m3u", "x")] staleFs).files "stale.m3u" =
      dictGet? staleFs.files "stale.m3u" :=
  ⟨by decide, C3_no_wipe [("plutotv_ca.m3u", "x")] staleFs "stale.m3u" (by decide)⟩

/-! ## Channel data model and the PlutoTV driver -/

/-- Fields of one upstream channel object that the script reads. -/
structure ChannelInfo where
  chno : Option Chno := none
  name : Option String := none
  logo : Option String := none
  group : Option String := none
  groups : Option (List String) := none
deriving DecidableEq, Repr

/-- One region object of the PlutoTV document: its channels dict in
insertion order (region_data.get applied to the channels key, a missing
key giving the empty dict). -/
structure RegionData where
  channels : List (String × ChannelInfo) := []
deriving DecidableEq, Repr

/-- The PlutoTV document after the top level regions key has been checked
(lines 109 to 112). -/
structure PlutoData where
  regions : List (String × RegionData) := []
deriving DecidableEq, Repr

/-- Working record built for one channel (lines 138 to 143 and 150 to
154): the upstream fields plus the keys the loop adds. -/
structure ProcChannel where
  info : ChannelInfo
  region_code : String
  group_title_override : Option String := none
  original_id : String
deriving DecidableEq, Repr

/-- The fixed region name lookup table of generate_pluto_m3u (lines 118
to 124). -/
def region_name_map : List (String × String) :=
  [("ar", "Argentina"), ("br", "Brazil"), ("ca", "Canada"), ("cl", "Chile"),
   ("co", "Colombia"), ("cr", "Costa Rica"), ("de", "Germany"), ("dk", "Denmark"),
   ("do", "Dominican Republic"), ("ec", "Ecuador"), ("es", "Spain"), ("fr", "France"),
   ("gb", "United Kingdom"), ("gt", "Guatemala"), ("it", "Italy"), ("mx", "Mexico"),
   ("no", "Norway"), ("pe", "Peru"), ("se", "Sweden"), ("us", "United States"),
   ("latam", "Latin America")]

/-- Lookup in region_name_map with the uppercased region code as the
default (line 135). -/
def regionFullName (region_key : String) : String :=
  (dictGet? region_name_map region_key).getD (pyUpper region_key)

/-- The entries inserted into channels_to_process by the all branch
(lines 133 to 143), in loop order: regions in document order, channels in
document order, the id combined as channel key, hyphen, region key. -/
def plutoAllItems (data : PlutoData) : List (String × ProcChannel) :=
  data.regions.flatMap fun rp =>
    rp.2.channels.map fun cp =>
      (cp.1 ++ "-" ++ rp.1,
        { info := cp.2, region_code := rp.1,
          group_title_override := some (regionFullName rp.1), original_id := cp.1 })

/-- channels_to_process for the all region: the items inserted one by one
into a Python dict. -/
def plutoAllChannels (data : PlutoData) : List (String × ProcChannel) :=
  (plutoAllItems data).foldl (fun a p => pyDictInsert p.1 p.2 a) []

/-- channels_to_process for a single region (lines 149 to 154): bare
channel keys, no group title override. -/
def plutoSingleChannels (rd : RegionData) (region : String) : List (String × ProcChannel) :=
  (rd.channels.map fun cp =>
      (cp.1, ({ info := cp.2, region_code := region, original_id := cp.1 } : ProcChannel))).foldl
    (fun a p => pyDictInsert p.1 p.2 a) []

/-- Sort key in chno mode (line 158): int applied to the chno field with
99999 substituted when the field is missing; none models the ValueError
raised for a non numeric string. -/
def chnoSortKey (pch : ProcChannel) : Option Int :=
  match pch.info.chno with
  | none => some 99999
  | some c => c.pyInt

/-- Python string comparison on character lists: strictly lexicographic
by code point. -/
def pyStrLtList : List Char → List Char → Bool
  | [], [] => false
  | [], _ :: _ => true
  | _ :: _, [] => false
  | c :: cs, d :: ds =>
      if c.toNat < d.toNat then true
      else if d.toNat < c.toNat then false
      else pyStrLtList cs ds

/-- The non strict Python string order used by sorted. -/
def pyStrLe (a b : String) : Bool := !(pyStrLtList b.data a.data)

/-- The non strict integer order used by sorted. -/
def intLe (x y : Int) : Bool := decide (x ≤ y)

/-- Python sorted with a key function: a stable ascending sort.  A stable
sort is determined by the key order alone, so insertion sort here renders
the same list as the sort used by the interpreter. -/
def pySortedBy {β : Type} (le : β → β → Bool) (f : String → β) (xs : List String) : List String :=
  xs.insertionSort fun a b => le (f a) (f b) = true

/-- Sort key in name mode (line 160): the lowercased name, defaulting to
the empty string. -/
def nameSortKey (d : List (String × ProcChannel)) (k : String) : String :=
  pyLower (((dictGet? d k).bind fun p => p.info.name).getD "")

/-- The sorted_channel_ids computation (lines 156 to 163): in chno mode
Python raises inside sorted when some chno fails int(), and the except
branch then keeps the dict insertion order; otherwise a stable ascending
sort by the respective key (the getD 0 under the all guard is never
read). -/
def plutoSortedIds (d : List (String × ProcChannel)) (sort : String) : List String :=
  if sort = "chno" then
    if (dictKeys d).all (fun k => ((dictGet? d k).bind chnoSortKey).isSome) then
      pySortedBy intLe (fun k => ((dictGet? d k).bind chnoSortKey).getD 0) (dictKeys d)
    else dictKeys d
  else
    pySortedBy pyStrLe (nameSortKey d) (dictKeys d)

/-- Stream URL template of generate_pluto_m3u (lines 100 to 105) with the
id, dev_id and sid parameters substituted. -/
def plutoStreamUrl (id dev_id sid : String) : String :=
  "https://service-stitcher.clusters.pluto.tv/stitch/hls/channel/" ++ id ++
  "/master.m3u8?advertisingId=&appName=web&appVersion=8.0.0&deviceDNT=0&deviceId=" ++
  dev_id ++ "&deviceMake=Chrome&deviceModel=web&deviceType=web&deviceVersion=123.0.0&sid=" ++
  sid ++ "&userId=&serverSideAds=true"

/-- Rendering of one channel (lines 165 to 178): the EXTINF line from the
channel fields with the Unknown Channel and empty logo defaults, and the
stream URL line from the template with the per run dev_id and sid.  The
all branch always sets group_title_override (see plutoAllItems), so its
getD default is never read. -/
def plutoEntry (is_all : Bool) (channel_id : String) (pch : ProcChannel)
    (dev_id sid : String) : String × String :=
  let name := pch.info.name.getD "Unknown Channel"
  let logo := pch.info.logo.getD ""
  let group := if is_all then pch.group_title_override.getD ""
    else pch.info.group.getD "Uncategorized"
  (format_extinf channel_id pch.original_id pch.info.chno name logo group name,
   plutoStreamUrl pch.original_id dev_id sid ++ "\n")

/-- channels_to_process for a requested region (lines 131 to 154): the
all pseudo region unions every region with combined ids; a region missing
from the document makes the driver skip the region, modelled as none. -/
def plutoChannelsToProcess (data : PlutoData) (region : String) :
    Option (List (String × ProcChannel)) :=
  if pyLower region = "all" then some (plutoAllChannels data)
  else
    match dictGet? data.regions region with
    | none => none
    | some rd => some (plutoSingleChannels rd region)

/-- The entry pairs (EXTINF line, stream URL line) emitted for one region
(lines 126 to 180) in emission order; none when the region is skipped.
The lookup of a sorted key back in the dict cannot fail, so the filterMap
drops nothing. -/
def plutoRegionEntries (data : PlutoData) (region sort dev_id sid : String) :
    Option (List (String × String)) :=
  (plutoChannelsToProcess data region).map fun d =>
    (plutoSortedIds d sort).filterMap fun k =>
      (dictGet? d k).map fun pch => plutoEntry (pyLower region = "all") k pch dev_id sid

/-! ## Stirr and Roku drivers -/

/-- Stream URL of the Stirr driver (line 337) with the id substituted. -/
def stirrStreamUrl (id : String) : String := "https://jmp2.uk/str-" ++ id ++ ".m3u8"

/-- Rendering of one Stirr channel (lines 350 to 353).  The name is read
with no default: a missing name reaches str.replace as None inside
format_extinf and raises AttributeError; a missing logo is interpolated
as the literal text None; the group is the comma join of the groups list,
defaulting to the empty list. -/
def stirrChannelLines (channel_id : String) (channel : ChannelInfo) :
    Except PyExn (List String) :=
  match channel.name with
  | none => .error .attributeError
  | some nm =>
      .ok [format_extinf channel_id channel_id channel.chno nm (pyShowOptStr channel.logo)
        (String.intercalate ", " (channel.groups.getD [])) nm,
        stirrStreamUrl channel_id ++ "\n"]

/-- Stream URL of the Roku driver (line 379) with the id substituted. -/
def rokuStreamUrl (id : String) : String := "https://jmp2.uk/rok-" ++ id ++ ".m3u8"

/-- EPG URL of the Roku driver (line 380). -/
def rokuEpgUrl : String := "https://github.com/matthuisman/i.mjh.nz/raw/master/Roku/all.xml.gz"

/-- The group of a Roku channel (line 393): the first element of the
groups list, where the default list holds the literal Uncategorized when
the key is absent; indexing an empty list raises IndexError. -/
def rokuChannelGroup (channel : ChannelInfo) : Except PyExn String :=
  match channel.groups with
  | none => .ok "Uncategorized"
  | some [] => .error .indexError
  | some (g :: _) => .ok g

/-- Rendering of one Roku channel (lines 391 to 396): the group first
(IndexError on an empty groups list), then the EXTINF line, where a
missing name raises AttributeError inside format_extinf. -/
def rokuEntryLines (channel_id : String) (channel : ChannelInfo) :
    Except PyExn (List String) := do
  let group ← rokuChannelGroup channel
  match channel.name with
  | none => .error .attributeError
  | some nm =>
      .ok [format_extinf channel_id channel_id channel.chno nm (pyShowOptStr channel.logo)
        group nm,
        rokuStreamUrl channel_id ++ "\n"]

/-- Sorted channel ids of the Roku driver (line 389): stable ascending by
lowercased name with the empty default. -/
def rokuSortedIds (chans : List (String × ChannelInfo)) : List String :=
  pySortedBy pyStrLe (fun k => pyLower (((dictGet? chans k).bind fun c => c.name).getD ""))
    (dictKeys chans)

/-- The Roku document after the top level channels check (line 384). -/
structure RokuData where
  channels : List (String × ChannelInfo) := []
deriving DecidableEq, Repr

/-- Translation of generate_roku_m3u (lines 376 to 398): none models a
failed fetch or a missing channels key, which returns with no output; an
exception while rendering a channel aborts the driver before the single
write at line 398, so an error produces no file. -/
def generate_roku_m3u (data : Option RokuData) : Except PyExn (List (String × String)) :=
  match data with
  | none => .ok []
  | some d =>
      let header := "#EXTM3U url-tvg=\"" ++ rokuEpgUrl ++ "\"\n"
      ((rokuSortedIds d.channels).foldlM (fun (lines : List String) k =>
          match dictGet? d.channels k with
          | some ch => (rokuEntryLines k ch).map fun es => lines ++ es
          | none => pure lines) [header]).map
        fun lines => [("roku_all.m3u", String.join lines)]

/-- Files written by one service when its driver is wrapped by the
orchestrator try block (lines 407 to 422): an exception is logged and
yields nothing. -/
def runService (r : Except PyExn (List (String × String))) : List (String × String) :=
  match r with
  | .ok ws => ws
  | .error _ => []

/-- Files written by a sequence of service drivers run by the
orchestrator loop. -/
def runAll (rs : List (Except PyExn (List (String × String)))) : List (String × String) :=
  rs.foldl (fun acc r => acc ++ runService r) []

/-! ## C9: the EXTINF text is independent of the session identifiers -/

/-- C9: the EXTINF lines emitted for a region are a deterministic
function of the document, region and sort mode alone; the per run random
session and device identifiers never reach format_extinf, so two runs
differing only in those identifiers render byte identical EXTINF text. -/
theorem C9_extinf_deterministic (data : PlutoData) (region sort : String)
    (dev1 sid1 dev2 sid2 : String) :
    (plutoRegionEntries data region sort dev1 sid1).map (fun es => es.map Prod.fst) =
      (plutoRegionEntries data region sort dev2 sid2).map (fun es => es.map Prod.fst) := by
  unfold plutoRegionEntries
  cases plutoChannelsToProcess data region with
  | none => rfl
  | some d =>
    simp only [Option.map_some', Option.some.injEq]
    induction plutoSortedIds d sort with
    | nil => rfl
    | cons k t ih =>
      simp only [List.filterMap_cons]
      cases dictGet? d k with
      | none => exact ih
      | some pch =>
        simp only [Option.map_some', List.map_cons, ih]
        rfl

/-! ## C4: session identifiers are shared across every emitted entry -/

/-- Two channel document used by the C4 theorems. -/
def plutoTwoChannels : PlutoData :=
  { regions := [("us",
      { channels := [("ch1", { name := some "A" }), ("ch2", { name := some "B" })] })] }

/-- C4 fails on the code: the session and device identifiers are drawn
once per run (lines 114 to 116) and shared by every emitted entry; with
two channels, both emitted stream URL lines embed the very same sid and
deviceId parameter values. -/
theorem C4_counterexample :
    (plutoRegionEntries plutoTwoChannels "us" "name" "D" "S").map (fun es => es.map Prod.snd) =
      some [plutoStreamUrl "ch1" "D" "S" ++ "\n", plutoStreamUrl "ch2" "D" "S" ++ "\n"] ∧
    ("&sid=S&".data <:+: (plutoStreamUrl "ch1" "D" "S").data) ∧
    ("&sid=S&".data <:+: (plutoStreamUrl "ch2" "D" "S").data) ∧
    ("&deviceId=D&".data <:+: (plutoStreamUrl "ch1" "D" "S").data) ∧
    ("&deviceId=D&".data <:+: (plutoStreamUrl "ch2" "D" "S").data) := by
  refine ⟨by decide, by decide, by decide, by decide, by decide⟩

/-- C4 amended: the identifiers are not per entry; every stream URL line
emitted for a region is the template applied to that entry's original id
and to the one run wide pair of device and session identifiers. -/
theorem C4_shared_session_ids (data : PlutoData) (region sort dev_id sid : String)
    (es : List (String × String))
    (hes : plutoRegionEntries data region sort dev_id sid = some es)
    (e : String × String) (he : e ∈ es) :
    ∃ oid, e.2 = plutoStreamUrl oid dev_id sid ++ "\n" := by
  unfold plutoRegionEntries at hes
  cases hd : plutoChannelsToProcess data region with
  | none => rw [hd] at hes; exact absurd hes (by simp)
  | some d =>
    rw [hd] at hes
    simp only [Option.map_some', Option.some.injEq] at hes
    rw [← hes] at he
    obtain ⟨k, hk, hke⟩ := List.mem_filterMap.mp he
    cases hg : dictGet? d k with
    | none => rw [hg] at hke; exact absurd hke (by simp)
    | some pch =>
      rw [hg] at hke
      simp only [Option.map_some', Option.some.injEq] at hke
      exact ⟨pch.original_id, by rw [← hke]; rfl⟩

/-- Entry list of the two channel document, used by the C4 witness. -/
def twoEntries : List (String × String) :=
  (plutoRegionEntries plutoTwoChannels "us" "name" "D" "S").getD []

/-- First emitted entry of the two channel document. -/
def wEntry : String × String := twoEntries.headD ("", "")

/-- Witness for the amended C4 theorem. -/
theorem C4_shared_session_ids_witness :
    (plutoRegionEntries plutoTwoChannels "us" "name" "D" "S" = some twoEntries ∧
      wEntry ∈ twoEntries) ∧
    ∃ oid, wEntry.2 = plutoStreamUrl oid "D" "S" ++ "\n" :=
  ⟨⟨by decide, by decide⟩,
    C4_shared_session_ids plutoTwoChannels "us" "name" "D" "S" twoEntries (by decide) wEntry
      (by decide)⟩

/-! ## C5: missing name and logo fields -/

/-- C5 fails on the code: the Stirr driver reads the name with no
default, so a channel without a name raises AttributeError instead of
rendering Unknown Channel; the Roku driver behaves the same way. -/
theorem C5_counterexample :
    stirrChannelLines "c1" { logo := some "L" } = .error .attributeError ∧
    rokuEntryLines "c1" { groups := some ["G"] } = .error .attributeError := by
  exact ⟨rfl, rfl⟩

/-- Statement of the amended C5: the Pluto normalization substitutes the
Unknown Channel and empty logo defaults; the Stirr and Roku drivers
substitute nothing: there a missing name raises AttributeError, and a
missing logo is rendered as the literal text None. -/
def missingFieldBehaviour : Prop :=
  (∀ (is_all : Bool) (cid : String) (pch : ProcChannel) (dev sid : String),
    pch.info.name = none → pch.info.logo = none →
    (plutoEntry is_all cid pch dev sid).1 =
      format_extinf cid pch.original_id pch.info.chno "Unknown Channel" ""
        (if is_all then pch.group_title_override.getD ""
          else pch.info.group.getD "Uncategorized") "Unknown Channel") ∧
  (∀ (cid : String) (ch : ChannelInfo), ch.name = none →
    stirrChannelLines cid ch = .error .attributeError) ∧
  (∀ (cid : String) (ch : ChannelInfo) (nm : String), ch.name = some nm → ch.logo = none →
    stirrChannelLines cid ch =
      .ok [format_extinf cid cid ch.chno nm "None"
        (String.intercalate ", " (ch.groups.getD [])) nm, stirrStreamUrl cid ++ "\n"]) ∧
  (∀ (cid : String) (ch : ChannelInfo), ch.groups = none → ch.name = none →
    rokuEntryLines cid ch = .error .attributeError)

/-- C5 amended, proved: defaults in the Pluto driver, a raised
AttributeError or the literal text None in the Stirr and Roku drivers. -/
theorem C5_missing_field_defaults : missingFieldBehaviour := by
  refine ⟨?_, ?_, ?_, ?_⟩
  · intro is_all cid pch dev sid hn hl
    simp [plutoEntry, hn, hl]
  · intro cid ch hn
    simp [stirrChannelLines, hn]
  · intro cid ch nm hn hl
    simp [stirrChannelLines, hn, hl, pyShowOptStr]
  · intro cid ch hg hn
    simp only [rokuEntryLines, rokuChannelGroup, hg, hn]
    rfl

/-- Witness for the C5 theorem, applying it to a concrete channel without
a name. -/
theorem C5_missing_field_defaults_witness :
    stirrChannelLines "w1" { logo := some "wl" } = .error .attributeError :=
  C5_missing_field_defaults.2.1 "w1" { logo := some "wl" } rfl

/-! ## C6: the chno sort mode -/

/-- A key found in the dict points to a pair of the list. -/
theorem dictGet?_mem {α : Type} (d : List (String × α)) (k : String) (v : α)
    (h : dictGet? d k = some v) : (k, v) ∈ d := by
  unfold dictGet? at h
  cases hf : d.find? (fun p => p.1 == k) with
  | none => rw [hf] at h; exact absurd h (by simp)
  | some p =>
    rw [hf] at h
    simp only [Option.map_some', Option.some.injEq] at h
    have hm := List.mem_of_find?_eq_some hf
    have hp : p.1 = k := by simpa using List.find?_some hf
    have hpv : p = (k, v) := by
      cases p
      simp only [Prod.mk.injEq]
      exact ⟨hp, h⟩
    rw [← hpv]
    exact hm

/-- Every key of the dict has a binding. -/
theorem dictGet?_isSome_of_mem_keys {α : Type} (d : List (String × α)) (k : String)
    (h : k ∈ dictKeys d) : (dictGet? d k).isSome = true := by
  unfold dictKeys at h
  obtain ⟨p, hp, hpk⟩ := List.mem_map.mp h
  unfold dictGet?
  have hfind : (d.find? fun q => q.1 == k).isSome = true :=
    List.find?_isSome.mpr ⟨p, hp, by simp [hpk]⟩
  cases hf : d.find? (fun q => q.1 == k) with
  | none => rw [hf] at hfind; exact absurd hfind (by simp)
  | some q => rfl

/-- Insertion sort by a transitive total key order is pairwise
ordered. -/
theorem pySortedBy_pairwise {β : Type} (le : β → β → Bool) (f : String → β)
    (htrans : ∀ x y z, le x y = true → le y z = true → le x z = true)
    (htot : ∀ x y, le x y = true ∨ le y x = true) (xs : List String) :
    (pySortedBy le f xs).Pairwise fun a b => le (f a) (f b) = true := by
  haveI : IsTotal String fun a b => le (f a) (f b) = true := ⟨fun a b => htot (f a) (f b)⟩
  haveI : IsTrans String fun a b => le (f a) (f b) = true :=
    ⟨fun a b c hab hbc => htrans (f a) (f b) (f c) hab hbc⟩
  exact List.sorted_insertionSort _ xs

/-- Insertion sort permutes its input. -/
theorem pySortedBy_perm {β : Type} (le : β → β → Bool) (f : String → β) (xs : List String) :
    (pySortedBy le f xs).Perm xs :=
  List.perm_insertionSort _ xs

/-- The emitted id order is always a permutation of the dict keys. -/
theorem plutoSortedIds_perm (d : List (String × ProcChannel)) (sort : String) :
    (plutoSortedIds d sort).Perm (dictKeys d) := by
  unfold plutoSortedIds
  by_cases hs : sort = "chno"
  · rw [if_pos hs]
    by_cases hg : (dictKeys d).all (fun k => ((dictGet? d k).bind chnoSortKey).isSome) = true
    · rw [if_pos hg]
      exact pySortedBy_perm _ _ _
    · rw [if_neg hg]
  · rw [if_neg hs]
    exact pySortedBy_perm _ _ _

/-- Working record with a given chno, used by the C6 theorems. -/
def mkChnoRec (c : Option Chno) (oid : String) : ProcChannel :=
  { info := { chno := c }, region_code := "us", original_id := oid }

/-- C6 fails on the code in two ways.  With a non numeric chno the key
function raises inside sorted and the except branch keeps insertion
order, so the non numeric record a is emitted before the numeric record
b.  And the missing chno sentinel is 99999, which is not larger than
every numeric channel number, so a record without chno is emitted before
a record with channel number 100000. -/
theorem C6_counterexample :
    plutoSortedIds [("a", mkChnoRec (some (.str "x")) "a"),
        ("b", mkChnoRec (some (.num 5)) "b")] "chno" = ["a", "b"] ∧
    chnoSortKey (mkChnoRec (some (.str "x")) "a") = none ∧
    chnoSortKey (mkChnoRec (some (.num 5)) "b") = some 5 ∧
    plutoSortedIds [("m", mkChnoRec none "m"),
        ("n", mkChnoRec (some (.num 100000)) "n")] "chno" = ["m", "n"] ∧
    chnoSortKey (mkChnoRec none "m") = some 99999 ∧
    chnoSortKey (mkChnoRec (some (.num 100000)) "n") = some 100000 := by
  refine ⟨by decide, rfl, rfl, by decide, rfl, rfl⟩

/-- Key by which the chno mode sorts, read back from the working set. -/
def chnoKeyOf (d : List (String × ProcChannel)) (k : String) : Int :=
  ((dictGet? d k).bind chnoSortKey).getD 0

/-- Statement of the amended C6: when int() accepts every chno (with
99999 substituted for a missing one), the emitted order is a permutation
of the keys, ascending by that key; when some chno makes int() raise, the
insertion order is kept unchanged. -/
def chnoSortBehaviour (d : List (String × ProcChannel)) : Prop :=
  ((plutoSortedIds d "chno").Pairwise fun a b => chnoKeyOf d a ≤ chnoKeyOf d b) ∧
  (plutoSortedIds d "chno").Perm (dictKeys d) ∧
  (∀ d2 : List (String × ProcChannel),
    (∃ k ∈ dictKeys d2, (dictGet? d2 k).bind chnoSortKey = none) →
    plutoSortedIds d2 "chno" = dictKeys d2)

/-- C6 amended, proved: ascending by the sentinel completed integer key
when every chno parses, insertion order unchanged when one does not. -/
theorem C6_chno_sort (d : List (String × ProcChannel))
    (h : ∀ p ∈ d, (chnoSortKey p.2).isSome = true) : chnoSortBehaviour d := by
  have hguard : (dictKeys d).all (fun k => ((dictGet? d k).bind chnoSortKey).isSome) = true := by
    rw [List.all_eq_true]
    intro k hk
    obtain ⟨v, hv⟩ := Option.isSome_iff_exists.mp (dictGet?_isSome_of_mem_keys d k hk)
    rw [hv]
    exact h (k, v) (dictGet?_mem d k v hv)
  have hred : plutoSortedIds d "chno" =
      pySortedBy intLe (fun k => ((dictGet? d k).bind chnoSortKey).getD 0) (dictKeys d) := by
    unfold plutoSortedIds
    rw [if_pos rfl, if_pos hguard]
  refine ⟨?_, plutoSortedIds_perm d "chno", ?_⟩
  · rw [hred]
    have hp := pySortedBy_pairwise intLe
      (fun k => ((dictGet? d k).bind chnoSortKey).getD 0) ?_ ?_ (dictKeys d)
    · exact hp.imp fun hab => of_decide_eq_true hab
    · intro x y z hxy hyz
      exact decide_eq_true (le_trans (of_decide_eq_true hxy) (of_decide_eq_true hyz))
    · intro x y
      rcases le_total x y with hxy | hyx
      · exact Or.inl (decide_eq_true hxy)
      · exact Or.inr (decide_eq_true hyx)
  · intro d2 hbad
    obtain ⟨k, hk, hnone⟩ := hbad
    have hne : ¬ ((dictKeys d2).all
        (fun q => ((dictGet? d2 q).bind chnoSortKey).isSome) = true) := by
      intro hall
      have hsome := List.all_eq_true.mp hall k hk
      rw [hnone] at hsome
      exact absurd hsome (by simp)
    unfold plutoSortedIds
    rw [if_pos rfl, if_neg hne]

/-- Witness for the amended C6 theorem. -/
theorem C6_chno_sort_witness :
    (∀ p ∈ [("b", mkChnoRec (some (.num 2)) "b"), ("a", mkChnoRec (some (.num 1)) "a")],
      (chnoSortKey p.2).isSome = true) ∧
    chnoSortBehaviour [("b", mkChnoRec (some (.num 2)) "b"),
      ("a", mkChnoRec (some (.num 1)) "a")] :=
  ⟨by decide, C6_chno_sort _ (by decide)⟩

/-! ## C8: region fan out -/

/-- Inserting a key that is not yet present appends the pair. -/
theorem pyDictInsert_of_not_mem {α : Type} (k : String) (v : α) (d : List (String × α))
    (h : k ∉ dictKeys d) : pyDictInsert k v d = d ++ [(k, v)] := by
  unfold pyDictInsert
  have hc : ¬ (d.any (fun p => p.1 == k) = true) := by
    intro hany
    obtain ⟨p, hp, hpk⟩ := List.any_eq_true.mp hany
    exact h (List.mem_map.mpr ⟨p, hp, eq_of_beq hpk⟩)
  rw [if_neg hc]

/-- Folding fresh distinct keys into a dict appends them in order. -/
theorem foldl_pyDictInsert_fresh {α : Type} (xs : List (String × α)) :
    ∀ acc : List (String × α), (∀ p ∈ xs, p.1 ∉ dictKeys acc) →
    (xs.map Prod.fst).Nodup →
    xs.foldl (fun a p => pyDictInsert p.1 p.2 a) acc = acc ++ xs := by
  induction xs with
  | nil =>
    intro acc _ _
    simp
  | cons x t ih =>
    intro acc hdisj hnd
    simp only [List.map_cons, List.nodup_cons] at hnd
    simp only [List.foldl_cons]
    rw [pyDictInsert_of_not_mem x.1 x.2 acc (hdisj x (List.mem_cons_self x t))]
    rw [ih (acc ++ [x]) ?_ hnd.2]
    · simp
    · intro p hp hmem
      have hkeys : dictKeys (acc ++ [x]) = dictKeys acc ++ [x.1] := by
        unfold dictKeys
        simp
      rw [hkeys] at hmem
      rcases List.mem_append.mp hmem with h1 | h2
      · exact hdisj p (List.mem_cons_of_mem x hp) h1
      · have hx1 : p.1 = x.1 := by simpa using h2
        apply hnd.1
        rw [← hx1]
        exact List.mem_map.mpr ⟨p, hp, rfl⟩

/-- With globally distinct combined ids the all dict is exactly the fan
out item list. -/
theorem plutoAllChannels_eq_items (data : PlutoData)
    (hnd : ((plutoAllItems data).map Prod.fst).Nodup) :
    plutoAllChannels data = plutoAllItems data := by
  unfold plutoAllChannels
  have h := foldl_pyDictInsert_fresh (plutoAllItems data) [] ?_ hnd
  · simpa using h
  · intro p hp hmem
    exact List.not_mem_nil _ hmem

/-- With distinct channel ids the single region dict is exactly the bare
id record list. -/
theorem plutoSingleChannels_eq (rd : RegionData) (region : String)
    (hnd : (rd.channels.map Prod.fst).Nodup) :
    plutoSingleChannels rd region =
      rd.channels.map fun cp =>
        (cp.1, ({ info := cp.2, region_code := region, original_id := cp.1 } : ProcChannel)) := by
  unfold plutoSingleChannels
  have h := foldl_pyDictInsert_fresh
    (rd.channels.map fun cp =>
      (cp.1, ({ info := cp.2, region_code := region, original_id := cp.1 } : ProcChannel)))
    [] ?_ ?_
  · simpa using h
  · intro p hp hmem
    exact List.not_mem_nil _ hmem
  · rw [List.map_map]
    exact hnd

/-- Statement of the amended C8: with pairwise distinct combined ids the
all working set is exactly the fan out of the document, one entry per
(channel, region) pair keyed by the combined id and grouped by the display
name of its region (the fixed table, uppercased code as fallback); the
single region working set keys channels by their bare ids; and the
emitted id order of the all playlist is a permutation of the combined
ids. -/
def plutoFanout (data : PlutoData) (region : String) (rd : RegionData) (sort : String) : Prop :=
  plutoAllChannels data = plutoAllItems data ∧
  (∀ rk rdata ck ci, (rk, rdata) ∈ data.regions → (ck, ci) ∈ rdata.channels →
    (ck ++ "-" ++ rk,
      ({ info := ci, region_code := rk, group_title_override := some (regionFullName rk),
         original_id := ck } : ProcChannel)) ∈ plutoAllChannels data) ∧
  plutoChannelsToProcess data region =
    some (rd.channels.map fun cp =>
      (cp.1, ({ info := cp.2, region_code := region, original_id := cp.1 } : ProcChannel))) ∧
  (plutoSortedIds (plutoAllChannels data) sort).Perm ((plutoAllItems data).map Prod.fst)

/-- C8 amended, proved. -/
theorem C8_region_fanout (data : PlutoData) (region : String) (rd : RegionData) (sort : String)
    (hnd : ((plutoAllItems data).map Prod.fst).Nodup)
    (hrd : (rd.channels.map Prod.fst).Nodup)
    (hlow : ¬ pyLower region = "all")
    (hreg : dictGet? data.regions region = some rd) :
    plutoFanout data region rd sort := by
  have h1 := plutoAllChannels_eq_items data hnd
  refine ⟨h1, ?_, ?_, ?_⟩
  · intro rk rdata ck ci hr hc
    rw [h1]
    unfold plutoAllItems
    rw [List.mem_flatMap]
    exact ⟨(rk, rdata), hr, List.mem_map.mpr ⟨(ck, ci), hc, rfl⟩⟩
  · unfold plutoChannelsToProcess
    rw [if_neg hlow, hreg]
    show some (plutoSingleChannels rd region) = _
    rw [plutoSingleChannels_eq rd region hrd]
  · rw [h1]
    exact plutoSortedIds_perm (plutoAllItems data) sort

/-- Colliding document for C8: channel a of region b-c and channel a-b of
region c both yield the combined id a-b-c. -/
def collidingPluto : PlutoData :=
  { regions := [("b-c", { channels := [("a", { name := some "A" })] }),
                ("c", { channels := [("a-b", { name := some "B" })] })] }

/-- C8 fails on the code: region b-c of the colliding document contains
channel a, yet the all working set holds a single entry, and that entry
records channel a-b of region c; the pair (a, b-c) has no entry of its
own because the second insert overwrote the first under the shared
combined id. -/
theorem C8_counterexample :
    ("b-c", ({ channels := [("a", { name := some "A" })] } : RegionData)) ∈
      collidingPluto.regions ∧
    (plutoAllChannels collidingPluto).length = 1 ∧
    ∀ p ∈ plutoAllChannels collidingPluto,
      p.1 = "a-b-c" ∧ p.2.original_id = "a-b" ∧ p.2.region_code = "c" := by
  refine ⟨by decide, by decide, by decide⟩

/-- Two region document with distinct combined ids, for the C8
witness. -/
def fanoutPluto : PlutoData :=
  { regions := [("us", { channels := [("a1", { name := some "A" })] }),
                ("gb", { channels := [("b1", { name := some "B" })] })] }

/-- Witness for the amended C8 theorem. -/
theorem C8_region_fanout_witness :
    (((plutoAllItems fanoutPluto).map Prod.fst).Nodup ∧
      ((({ channels := [("a1", { name := some "A" })] } : RegionData)).channels.map
        Prod.fst).Nodup ∧
      ¬ pyLower "us" = "all" ∧
      dictGet? fanoutPluto.regions "us" =
        some ({ channels := [("a1", { name := some "A" })] } : RegionData)) ∧
    plutoFanout fanoutPluto "us" { channels := [("a1", { name := some "A" })] } "name" :=
  ⟨⟨by decide, by decide, by decide, by decide⟩,
    C8_region_fanout fanoutPluto "us" { channels := [("a1", { name := some "A" })] } "name"
      (by decide) (by decide) (by decide) (by decide)⟩

/-! ## C10: the Roku driver and an empty groups list -/

/-- With unique keys, a member pair is what lookup returns. -/
theorem dictGet?_of_mem_nodup {α : Type} (d : List (String × α)) (k : String) (v : α)
    (hnd : (d.map Prod.fst).Nodup) (h : (k, v) ∈ d) : dictGet? d k = some v := by
  induction d with
  | nil => exact absurd h (List.not_mem_nil _)
  | cons p t ih =>
    simp only [List.map_cons, List.nodup_cons] at hnd
    rcases List.mem_cons.mp h with heq | hmem
    · subst heq
      unfold dictGet?
      simp
    · have hk : k ∈ t.map Prod.fst := List.mem_map.mpr ⟨(k, v), hmem, rfl⟩
      have hne : ¬ (p.1 == k) = true := by
        intro hbeq
        apply hnd.1
        rw [eq_of_beq hbeq]
        exact hk
      have hfalse : (p.1 == k) = false := by
        cases hb : (p.1 == k) with
        | false => rfl
        | true => exact absurd hb hne
      unfold dictGet?
      simp only [List.find?_cons, hfalse]
      exact ih hnd.2 hmem

/-- A fold in the Except monad fails when some element always fails. -/
theorem foldlM_error_of_mem {σ α : Type} (step : σ → α → Except PyExn σ)
    (xs : List α) (x : α) (e : PyExn) (hstep : ∀ acc, step acc x = .error e) :
    ∀ init : σ, x ∈ xs → ∃ e2, xs.foldlM step init = .error e2 := by
  induction xs with
  | nil =>
    intro init hx
    exact absurd hx (List.not_mem_nil _)
  | cons y t ih =>
    intro init hx
    rw [List.foldlM_cons]
    rcases List.mem_cons.mp hx with rfl | hmem
    · refine ⟨e, ?_⟩
      rw [hstep init]
      rfl
    · cases hy : step init y with
      | error e3 => exact ⟨e3, rfl⟩
      | ok acc2 =>
        obtain ⟨e2, h2⟩ := ih acc2 hmem
        exact ⟨e2, h2⟩

/-- Splitting the orchestrator loop over an accumulator. -/
theorem runAll_acc (rs : List (Except PyExn (List (String × String))))
    (a : List (String × String)) :
    rs.foldl (fun acc r => acc ++ runService r) a = a ++ runAll rs := by
  induction rs generalizing a with
  | nil => simp [runAll]
  | cons r t ih =>
    show t.foldl _ (a ++ runService r) = a ++ runAll (r :: t)
    rw [ih]
    have hr : runAll (r :: t) = runService r ++ runAll t := by
      show t.foldl _ ([] ++ runService r) = _
      rw [List.nil_append, ih (runService r)]
    rw [hr, List.append_assoc]

/-- The orchestrator loop distributes over concatenation. -/
theorem runAll_append (rs1 rs2 : List (Except PyExn (List (String × String)))) :
    runAll (rs1 ++ rs2) = runAll rs1 ++ runAll rs2 := by
  show (rs1 ++ rs2).foldl _ [] = _
  rw [List.foldl_append]
  exact runAll_acc rs2 _

/-- Statement of C10: an absent groups key gets the Uncategorized
default; a document holding a channel whose groups list is empty makes
the Roku driver raise before its single write, so the orchestrator
records no roku file; and one failed driver never affects the files of
the other drivers. -/
def rokuEmptyGroupsBehaviour (d : RokuData) : Prop :=
  (∀ ch : ChannelInfo, ch.groups = none → rokuChannelGroup ch = .ok "Uncategorized") ∧
  (∃ e, generate_roku_m3u (some d) = .error e) ∧
  runService (generate_roku_m3u (some d)) = [] ∧
  (∀ (rs1 rs2 : List (Except PyExn (List (String × String)))) (e : PyExn),
    runAll (rs1 ++ .error e :: rs2) = runAll rs1 ++ runAll rs2)

/-- C10: the Uncategorized default applies only to an absent groups key;
an empty groups list raises IndexError, the driver aborts before writing
roku_all.m3u, and the orchestrator isolates the failure. -/
theorem C10_roku_empty_groups (d : RokuData)
    (hnd : (d.channels.map Prod.fst).Nodup)
    (hbad : ∃ p ∈ d.channels, p.2.groups = some []) :
    rokuEmptyGroupsBehaviour d := by
  obtain ⟨p, hp, hpg⟩ := hbad
  have hget : dictGet? d.channels p.1 = some p.2 := by
    have hmem : (p.1, p.2) ∈ d.channels := by simpa using hp
    exact dictGet?_of_mem_nodup d.channels p.1 p.2 hnd hmem
  have hlines : rokuEntryLines p.1 p.2 = .error .indexError := by
    unfold rokuEntryLines rokuChannelGroup
    rw [hpg]
    rfl
  have hmemsorted : p.1 ∈ rokuSortedIds d.channels := by
    unfold rokuSortedIds
    have hperm := pySortedBy_perm pyStrLe
      (fun k => pyLower (((dictGet? d.channels k).bind fun c => c.name).getD ""))
      (dictKeys d.channels)
    exact hperm.mem_iff.mpr (List.mem_map.mpr ⟨p, hp, rfl⟩)
  have hstep : ∀ acc : List String,
      (match dictGet? d.channels p.1 with
        | some ch => (rokuEntryLines p.1 ch).map fun es => acc ++ es
        | none => pure acc) = Except.error PyExn.indexError := by
    intro acc
    rw [hget]
    show (rokuEntryLines p.1 p.2).map _ = _
    rw [hlines]
    rfl
  have herr := foldlM_error_of_mem
    (fun (lines : List String) k =>
      match dictGet? d.channels k with
      | some ch => (rokuEntryLines k ch).map fun es => lines ++ es
      | none => pure lines)
    (rokuSortedIds d.channels) p.1 .indexError hstep
    ["#EXTM3U url-tvg=\"" ++ rokuEpgUrl ++ "\"\n"] hmemsorted
  obtain ⟨e2, h2⟩ := herr
  have hgen : generate_roku_m3u (some d) = .error e2 := by
    show ((rokuSortedIds d.channels).foldlM
        (fun (lines : List String) k =>
          match dictGet? d.channels k with
          | some ch => (rokuEntryLines k ch).map fun es => lines ++ es
          | none => pure lines)
        ["#EXTM3U url-tvg=\"" ++ rokuEpgUrl ++ "\"\n"]).map
      (fun lines => [("roku_all.m3u", String.join lines)]) = .error e2
    rw [h2]
    rfl
  refine ⟨?_, ⟨e2, hgen⟩, ?_, ?_⟩
  · intro ch hg
    unfold rokuChannelGroup
    rw [hg]
  · rw [hgen]
    rfl
  · intro rs1 rs2 e
    rw [runAll_append]
    rfl

/-- Roku document with an empty groups list, for the C10 witness. -/
def emptyGroupsRoku : RokuData :=
  { channels := [("c1", { name := some "N", groups := some [] })] }

/-- Witness for the C10 theorem. -/
theorem C10_roku_empty_groups_witness :
    ((emptyGroupsRoku.channels.map Prod.fst).Nodup ∧
      ∃ p ∈ emptyGroupsRoku.channels, p.2.groups = some []) ∧
    rokuEmptyGroupsBehaviour emptyGroupsRoku :=
  ⟨⟨by decide, by decide⟩, C10_roku_empty_groups emptyGroupsRoku (by decide) (by decide)⟩
